import Mathlib

/-!
Shallow embedding of the MIS dashboard ingestion-and-normalization pipeline
(src/app.py) together with its aggregation and classification views.
Headers, cells and whole tables are modelled column-major, matching the
dataframe library the source drives: a table is a row count plus a list of
named columns of cells.
-/

namespace MIS

/-- Cell values of the spreadsheet table: a string, a rational number, a
day-precision calendar date (encoded as an integer), or a missing value
(the NaN and NaT of the source). -/
inductive Cell where
  | str (s : String)
  | num (q : ℚ)
  | date (d : ℤ)
  | empty
deriving DecidableEq, Repr

/-- Column-major data frame: a row count and a list of named columns. -/
structure DF where
  nrows : Nat
  cols : List (String × List Cell)
deriving DecidableEq, Repr

/-- Column access by name, first match (df[name] in the source). -/
def DF.getCol (df : DF) (name : String) : Option (List Cell) :=
  (df.cols.find? (fun p => p.1 == name)).map (fun p => p.2)

/-- Replace the named column by its image under f (df[name] = f(df[name])). -/
def DF.mapCol (df : DF) (name : String) (f : Cell → Cell) : DF :=
  ⟨df.nrows, df.cols.map (fun p => if p.1 == name then (p.1, p.2.map f) else p)⟩

/-- Keep the entries of a column selected by a boolean mask. -/
def applyMask : List Bool → List Cell → List Cell
  | true :: ms, c :: cs => c :: applyMask ms cs
  | false :: ms, _ :: cs => applyMask ms cs
  | _, _ => []

def countTrue (ms : List Bool) : Nat := (ms.filter id).length

/-- Row filtering by a predicate on one column (df[pred(df[name])]): the mask
computed on the named column is applied to every column. -/
def DF.filterBy (df : DF) (name : String) (p : Cell → Bool) : DF :=
  match df.getCol name with
  | none => df
  | some vals =>
    let mask := vals.map p
    ⟨countTrue mask, df.cols.map (fun q => (q.1, applyMask mask q.2))⟩

/-- Whether k occurs as a contiguous substring of c (the Python `k in c`). -/
def listHas (k : List Char) : List Char → Bool
  | [] => k.isEmpty
  | a :: as => k.isPrefixOf (a :: as) || listHas k as

def strHas (c k : String) : Bool := listHas k.toList c.toList

/-- ASCII whitespace, as stripped by the header and cell string cleanup. -/
def isSpace (c : Char) : Bool := c == ' ' || c == '\t' || c == '\n' || c == '\r'

/-- Strip leading and trailing whitespace from a character list. -/
def trimChars (cs : List Char) : List Char :=
  ((cs.dropWhile isSpace).reverse.dropWhile isSpace).reverse

/-- ASCII lowercasing of one character. -/
def lowerChar (c : Char) : Char :=
  if 'A' ≤ c && c ≤ 'Z' then Char.ofNat (c.toNat + 32) else c

/-- Header normalization of the source: lowercase, then strip surrounding
whitespace. -/
def normHeader (s : String) : String :=
  String.mk (trimChars (s.toList.map lowerChar))

/-- Split a character list on a separator character. -/
def splitOnChar (sep : Char) : List Char → List (List Char)
  | [] => [[]]
  | a :: as =>
    match splitOnChar sep as with
    | h :: t => if a == sep then [] :: h :: t else (a :: h) :: t
    | [] => if a == sep then [[], []] else [[a]]

/-- The find_col helper of the source: scan the (already lowercased and
trimmed) headers in original order and return the first one containing any of
the keys as a substring, or none. -/
def find_col (cols : List String) (keys : List String) : Option String :=
  cols.find? (fun c => keys.any (fun k => strHas c k))

/-- The canonical fields in their declaration order in the rename dict of the
source, each with its substring key list. -/
def canonicalFields : List (List String × String) :=
  [(["bank"], "bank"), (["model"], "model"), (["predicted"], "predicted"),
   (["confirmed"], "confirmed"), (["accuracy"], "accuracy"), (["date"], "date")]

/-- The rename dict of the source, as the ordered list of its entries:
resolved source header (possibly none) paired with the canonical name. -/
def buildRenameMap (cols : List String) : List (Option String × String) :=
  canonicalFields.map (fun f => (find_col cols f.1, f.2))

/-- Renaming one column through the Python dict literal: a later duplicate key
overwrites an earlier one, so the lookup scans the entries from the end; a
column matching no entry keeps its name. -/
def renameCol (m : List (Option String × String)) (c : String) : String :=
  match m.reverse.find? (fun p => p.1 == some c) with
  | some p => p.2
  | none => c

/-- Which header each canonical field resolves to, in field order. -/
def fieldClaims (cols : List String) : List (String × String) :=
  canonicalFields.filterMap (fun f => (find_col cols f.1).map (fun h => (f.2, h)))

def natOfDigits (cs : List Char) : Nat := cs.foldl (fun n c => n * 10 + (c.toNat - 48)) 0

/-- Strict decimal parse mirroring pd.to_numeric on a string cell: optional
sign, digits with at most one decimal point, surrounding whitespace tolerated;
anything else, thousands separators included, fails. -/
def parseRat (s : String) : Option ℚ :=
  let cs := trimChars s.toList
  let sgn : ℚ := match cs with | '-' :: _ => -1 | _ => 1
  let body := match cs with | '-' :: r => r | '+' :: r => r | r => r
  let ip := body.takeWhile (fun c => c != '.')
  let rest := body.dropWhile (fun c => c != '.')
  let fp := rest.tail
  if (ip.isEmpty && fp.isEmpty) || !(ip.all Char.isDigit) || !(fp.all Char.isDigit) then
    none
  else
    some (sgn * ((natOfDigits ip : ℚ) + (natOfDigits fp : ℚ) / 10 ^ fp.length))

def parseCell : Cell → Option ℚ
  | .num q => some q
  | .str s => parseRat s
  | .date _ => none
  | .empty => none

/-- Models pd.to_numeric(col, errors=coerce).fillna(0) at one cell: parse,
and replace a failed parse by zero. -/
def coerceCell (c : Cell) : Cell := .num ((parseCell c).getD 0)

/-- Numeric reading of a cell, as the aggregations consume it. -/
def toRat : Cell → ℚ
  | .num q => q
  | _ => 0

/-- Day-precision date encoded injectively: year, month and day packed in one
integer, so equality of encodings is equality of dates. -/
def encodeDate (y m d : Nat) : ℤ := (y * 10000 + m * 100 + d : Nat)

/-- Modelled from pd.to_datetime(col, errors=coerce), restricted to ISO
yyyy-mm-dd strings: such a string with a valid month and day parses, anything
unparseable coerces to missing (NaT). -/
def parseDateStr (s : String) : Option ℤ :=
  match splitOnChar '-' (trimChars s.toList) with
  | [ys, ms, ds] =>
    if ys.all Char.isDigit && !ys.isEmpty &&
       ms.all Char.isDigit && !ms.isEmpty &&
       ds.all Char.isDigit && !ds.isEmpty then
      let y := natOfDigits ys
      let m := natOfDigits ms
      let d := natOfDigits ds
      if 1 ≤ m && m ≤ 12 && 1 ≤ d && d ≤ 31 then some (encodeDate y m d) else none
    else none
  | _ => none

def parseDateCell : Cell → Cell
  | .date d => .date d
  | .str s => match parseDateStr s with | some d => .date d | none => .empty
  | _ => .empty

/-- The REQUIRED_COLUMNS dict of the source with its defaults, in order. -/
def REQUIRED_COLUMNS : List (String × Cell) :=
  [("predicted", .num 0), ("confirmed", .num 0), ("accuracy", .num 0),
   ("status", .str "Active"), ("alert_date", .empty)]

/-- Force-create pass of the source: every REQUIRED_COLUMNS name absent from
the table is appended as a constant column of its default. -/
def fillRequired (df : DF) : DF :=
  ⟨df.nrows,
   df.cols ++ (REQUIRED_COLUMNS.filter
     (fun p => !(df.cols.any (fun q => q.1 == p.1)))).map
     (fun p => (p.1, List.replicate df.nrows p.2))⟩

/-- Lowercase and trim every header, then rename through the dict built from
find_col on the lowered headers. -/
def renameHeaders (df : DF) : DF :=
  let lowered := df.cols.map (fun p => (normHeader p.1, p.2))
  let m := buildRenameMap (lowered.map (fun p => p.1))
  ⟨df.nrows, lowered.map (fun p => (renameCol m p.1, p.2))⟩

/-- Module-level ingestion of the source: normalize headers, rename, force-
create required columns with defaults, numeric-coerce predicted, confirmed and
accuracy, then datetime-coerce the date column; a table with no date column
raises an uncaught key error at that last step. -/
def ingest (df : DF) : Except String DF :=
  let t := fillRequired (renameHeaders df)
  let t1 := t.mapCol "predicted" coerceCell
  let t2 := t1.mapCol "confirmed" coerceCell
  let t3 := t2.mapCol "accuracy" coerceCell
  match t3.getCol "date" with
  | none => .error "date"
  | some _ => .ok (t3.mapCol "date" parseDateCell)

/-- One column of the ingested table, none when ingestion fails. -/
def ingestCol (df : DF) (name : String) : Option (List Cell) :=
  match ingest df with
  | .ok t => t.getCol name
  | .error _ => none

def ALERT_THRESHOLD : ℚ := 40

/-- The date-filter predicate of the source: the cell equals the selected
day-precision date; a missing date never equals any date. -/
def dateMatch (d : ℤ) (c : Cell) : Bool := c == .date d

/-- filtered_df of the source: rows of the ingested table whose date equals
the selected date. -/
def dateFiltered (df : DF) (d : ℤ) : DF := df.filterBy "date" (dateMatch d)

/-- Alert rows of the source: rows of the (date-filtered) table whose
accuracy lies strictly below the threshold. -/
def DF.alerts (df : DF) : DF :=
  df.filterBy "accuracy" (fun c => decide (toRat c < ALERT_THRESHOLD))

/-- Critical Models KPI of the source: how many rows of the table have
accuracy strictly below the threshold. -/
def criticalCount (df : DF) : Nat :=
  match df.getCol "accuracy" with
  | some vals => (vals.filter (fun c => decide (toRat c < ALERT_THRESHOLD))).length
  | none => 0

/-- The band lambda of the source, applied to an accuracy value. -/
def band (x : ℚ) : String :=
  if x ≥ 70 then "High" else if x ≥ 50 then "Medium" else "Low"

/-- Injective encoding of cells into a lexicographic product, giving the key
ordering the grouped views sort by; strings compare lexicographically by
their character lists. -/
def Cell.enc : Cell → ℕ ×ₗ ℚ ×ₗ ℤ ×ₗ List Char
  | .empty => toLex (0, toLex (0, toLex (0, [])))
  | .num q => toLex (1, toLex (q, toLex (0, [])))
  | .date d => toLex (2, toLex (0, toLex (d, [])))
  | .str s => toLex (3, toLex (0, toLex (0, s.toList)))

instance : LinearOrder Cell :=
  LinearOrder.lift' Cell.enc (by
    intro a b h
    cases a <;> cases b <;>
      simp only [Cell.enc, toLex_inj, Prod.mk.injEq] at h <;> simp_all [String.ext_iff])

/-- Group keys of a grouped view: the distinct non-missing key cells in
ascending key order (the grouping operation of the dataframe library drops
missing keys and sorts the group labels). -/
def bankKeys (rs : List (Cell × ℚ × ℚ)) : List Cell :=
  List.insertionSort (· ≤ ·) ((rs.map (fun r => r.1)).filter (fun c => c != Cell.empty)).dedup

/-- Sum of a numeric field over the records of one group. -/
def sumFor (rs : List (Cell × ℚ × ℚ)) (k : Cell) (f : Cell × ℚ × ℚ → ℚ) : ℚ :=
  ((rs.filter (fun r => r.1 == k)).map f).sum

/-- The groupby-bank sum of predicted and confirmed, over a record view of
the table. -/
def bankSummaryOf (rs : List (Cell × ℚ × ℚ)) : List (Cell × ℚ × ℚ) :=
  (bankKeys rs).map (fun k =>
    (k, sumFor rs k (fun r => r.2.1), sumFor rs k (fun r => r.2.2)))

/-- Row view joining the bank, predicted and confirmed columns. -/
def DF.bankRecords (df : DF) : List (Cell × ℚ × ℚ) :=
  match df.getCol "bank", df.getCol "predicted", df.getCol "confirmed" with
  | some bs, some ps, some cs =>
    (bs.zip (ps.zip cs)).map (fun r => (r.1, toRat r.2.1, toRat r.2.2))
  | _, _, _ => []

/-- The bar-chart summary of the source: group the table by bank and sum
predicted and confirmed. -/
def DF.bankSummary (df : DF) : List (Cell × ℚ × ℚ) := bankSummaryOf df.bankRecords

/-- Follows the words of claim C6, not the source: the set of banks whose
mean accuracy over their records lies strictly below the threshold. -/
def claimMeanAlertSet (rs : List (Cell × ℚ)) : List Cell :=
  ((rs.map (fun r => r.1)).dedup).filter
    (fun k =>
      let accs := (rs.filter (fun r => r.1 == k)).map (fun r => r.2)
      decide (accs.sum / (accs.length : ℚ) < ALERT_THRESHOLD))

/-- The fields of the add-or-update sidebar form. -/
structure NewRow where
  bank : String
  model : String
  predicted : ℚ
  confirmed : ℚ
  accuracy : ℚ
  date : ℤ
  status : String
deriving Repr, DecidableEq

/-- The new_row dict of the source; alert_date is the form date when the
accuracy is below the threshold and missing otherwise. -/
def NewRow.cells (r : NewRow) : List (String × Cell) :=
  [("bank", .str r.bank), ("model", .str r.model), ("predicted", .num r.predicted),
   ("confirmed", .num r.confirmed), ("accuracy", .num r.accuracy), ("date", .date r.date),
   ("status", .str r.status),
   ("alert_date", if r.accuracy < ALERT_THRESHOLD then .date r.date else .empty)]

/-- pd.concat of the table with a one-row frame: existing columns get the new
value (missing when the row lacks the key), keys absent from the table become
new columns padded with missing above the new value. -/
def DF.appendRow (df : DF) (cells : List (String × Cell)) : DF :=
  ⟨df.nrows + 1,
   df.cols.map (fun p =>
     (p.1, p.2 ++ [((cells.find? (fun q => q.1 == p.1)).map (fun q => q.2)).getD .empty]))
   ++ (cells.filter (fun q => !(df.cols.any (fun p => p.1 == q.1)))).map
     (fun q => (q.1, List.replicate df.nrows Cell.empty ++ [q.2]))⟩

/-- Admin gate around the add-or-update form: only when the role is Admin and
the form is submitted is the new row appended and the grid written back to
the spreadsheet file; the result pairs the in-memory table with the file
state. -/
def adminFlow (role : String) (submit : Bool) (row : NewRow) (df file : DF) : DF × DF :=
  if role == "Admin" then
    if submit then
      let df2 := df.appendRow row.cells
      (df2, df2)
    else (df, file)
  else (df, file)

/-- Raw two-column sheet whose headers resolve bank and date but not
accuracy. -/
def exC2 : DF := ⟨1, [("Bank Name", [.str "A"]), ("Report Date", [.str "2024-01-01"])]⟩

/-- Raw sheet whose bank-name column is the sequence A, blank, blank, B,
blank. -/
def exC3 : DF :=
  ⟨5, [("Bank Name", [.str "A", .empty, .empty, .str "B", .empty]),
       ("Model", List.replicate 5 (.str "m")),
       ("Predicted", [.num 1, .num 2, .num 3, .num 4, .num 5]),
       ("Confirmed", List.replicate 5 (.num 1)),
       ("Accuracy", [.num 50, .num 60, .num 70, .num 80, .num 90]),
       ("Date", List.replicate 5 (.str "2024-01-01"))]⟩

/-- Normalized table with one record per bank: X at accuracy 35, Y at 55. -/
def exAlerts : DF := ⟨2, [("bank", [.str "X", .str "Y"]), ("accuracy", [.num 35, .num 55])]⟩

/-- Normalized table with two records of the same bank X, accuracies 35 and
55 (mean 45). -/
def exAlertsSameBank : DF :=
  ⟨2, [("bank", [.str "X", .str "X"]), ("accuracy", [.num 35, .num 55])]⟩

/-- Normalized table with bank a at predicted 10 and bank b at predicted
100. -/
def exSummary : DF :=
  ⟨2, [("bank", [.str "a", .str "b"]), ("predicted", [.num 10, .num 100]),
       ("confirmed", [.num 1, .num 2])]⟩

/-- Table whose first accuracy cell is the unparseable string abc. -/
def exAccuracyRaw : DF :=
  ⟨2, [("bank", [.str "X", .str "Y"]), ("accuracy", [.str "abc", .num 80])]⟩

/-- The same table after the numeric coercion of the accuracy column. -/
def exAccuracyCoerced : DF := exAccuracyRaw.mapCol "accuracy" coerceCell

/-- A concrete form submission. -/
def exRow : NewRow := ⟨"NewBank", "m1", 5, 2, 80, 20240101, "Active"⟩

/-- Normalized table whose second record has a missing date. -/
def exDate : DF := ⟨2, [("bank", [.str "X", .str "Y"]), ("date", [.date 20240101, .empty])]⟩

/-- The ingestion result on exC2, written out. -/
def exC2Ingested : DF :=
  ⟨1, [("bank", [.str "A"]), ("date", [.date 20240101]), ("predicted", [.num 0]),
       ("confirmed", [.num 0]), ("accuracy", [.num 0]), ("status", [.str "Active"]),
       ("alert_date", [.empty])]⟩

/-! Helper lemmas shared by the claim theorems. -/

theorem applyMask_map_filter (p : Cell → Bool) (l : List Cell) :
    applyMask (l.map p) l = l.filter p := by
  induction l with
  | nil => rfl
  | cons a as ih => cases h : p a <;> simp [applyMask, List.filter_cons, h, ih]

theorem find?_name_map (g : String × List Cell → List Cell)
    (cols : List (String × List Cell)) (n : String) :
    (cols.map (fun p => (p.1, g p))).find? (fun p => p.1 == n) =
      (cols.find? (fun p => p.1 == n)).map (fun p => (p.1, g p)) := by
  induction cols with
  | nil => rfl
  | cons a as ih => cases h : (a.1 == n) <;> simp [List.find?_cons, h, ih]

theorem getCol_filterBy (df : DF) (c : String) (p : Cell → Bool) (vals : List Cell)
    (h : df.getCol c = some vals) (n : String) :
    (df.filterBy c p).getCol n = (df.getCol n).map (fun v => applyMask (vals.map p) v) := by
  unfold DF.filterBy
  rw [h]
  show DF.getCol ⟨_, df.cols.map (fun q => (q.1, applyMask (vals.map p) q.2))⟩ n = _
  unfold DF.getCol
  rw [find?_name_map (fun q => applyMask (vals.map p) q.2) df.cols n]
  cases df.cols.find? (fun q => q.1 == n) <;> rfl

theorem bankKeys_perm {rs1 rs2 : List (Cell × ℚ × ℚ)} (h : rs1.Perm rs2) :
    bankKeys rs1 = bankKeys rs2 := by
  have hp := ((h.map (fun r => r.1)).filter (fun c => c != Cell.empty)).dedup
  exact List.eq_of_perm_of_sorted
    ((List.perm_insertionSort _ _).trans (hp.trans (List.perm_insertionSort _ _).symm))
    (List.sorted_insertionSort _ _) (List.sorted_insertionSort _ _)

theorem sumFor_perm {rs1 rs2 : List (Cell × ℚ × ℚ)} (h : rs1.Perm rs2)
    (k : Cell) (f : Cell × ℚ × ℚ → ℚ) : sumFor rs1 k f = sumFor rs2 k f :=
  List.Perm.sum_eq ((h.filter (fun r => r.1 == k)).map f)

theorem ingest_ok_nrows (df t : DF) (h : ingest df = .ok t) : t.nrows = df.nrows := by
  unfold ingest at h
  simp only [] at h
  split at h
  · exact Except.noConfusion h
  · cases h
    rfl

/-! Claim theorems. -/

/-- C4, counterexample: the numeric coercion of the code does not strip
thousands separators and does not turn a failed parse into a missing value:
the cell 1,234 coerces to zero, which is neither 1234 nor missing. -/
theorem numeric_coercion_cex :
    coerceCell (.str "1,234") = .num 0 ∧
    Cell.num 0 ≠ Cell.num 1234 ∧ Cell.num 0 ≠ Cell.empty := by
  refine ⟨by decide, by decide, by decide⟩

/-- C4, amended: numeric coercion parses string cells strictly after
stripping surrounding whitespace only; a cell with a thousands separator or
any other unparseable cell coerces to zero, not to missing, and coercion is
idempotent on already-numeric cells. -/
theorem numeric_coercion_strict_zero_fill :
    (∀ q : ℚ, coerceCell (.num q) = .num q) ∧
    coerceCell (.str " 42 ") = .num 42 ∧
    coerceCell (.str "1,234") = .num 0 ∧
    coerceCell (.str "abc") = .num 0 := by
  refine ⟨fun q => rfl, ?_, by decide, by decide⟩
  have h : coerceCell (.str " 42 ") = .num (1 * ((42:ℚ) + 0 / 10 ^ 0)) := rfl
  rw [h]
  norm_num

/-- C5, counterexample: the three band labels of the code are High, Medium
and Low, not Good, Medium and Poor: at accuracy 70 the code yields High and
at 49.999 it yields Low. -/
theorem band_label_cex :
    band 70 = "High" ∧ "High" ≠ "Good" ∧
    band (mkRat 49999 1000) = "Low" ∧ "Low" ≠ "Poor" := by
  refine ⟨by decide, by decide, by decide, by decide⟩

/-- C5, amended: the band is a pure three-valued function of accuracy with
lower-bound-inclusive boundaries, labelled High at or above 70, Medium on
[50, 70), and Low below 50. -/
theorem band_thresholds :
    ∀ x : ℚ, (70 ≤ x → band x = "High") ∧
      (50 ≤ x → x < 70 → band x = "Medium") ∧
      (x < 50 → band x = "Low") := by
  intro x
  unfold band
  refine ⟨fun h1 => ?_, fun h1 h2 => ?_, fun h1 => ?_⟩ <;>
    split_ifs <;> first | rfl | linarith

/-- C5, witness: the band boundaries evaluated at 70, 69.999, 50 and
49.999. -/
theorem band_thresholds_witness :
    band 70 = "High" ∧ band (mkRat 69999 1000) = "Medium" ∧
    band 50 = "Medium" ∧ band (mkRat 49999 1000) = "Low" :=
  ⟨(band_thresholds 70).1 (by decide),
   (band_thresholds (mkRat 69999 1000)).2.1 (by decide) (by decide),
   (band_thresholds 50).2.1 (by decide) (by decide),
   (band_thresholds (mkRat 49999 1000)).2.2 (by decide)⟩

/-- C9: the append-new-record flow is gated by the role token: a run whose
role is not Admin never executes the append path and leaves both the
in-memory table and the spreadsheet file unchanged, and any run that changes
the file is an Admin run with a submitted form. -/
theorem non_admin_never_writes :
    ∀ (role : String) (submit : Bool) (row : NewRow) (df file : DF),
      (role ≠ "Admin" → adminFlow role submit row df file = (df, file)) ∧
      ((adminFlow role submit row df file).2 ≠ file → role = "Admin" ∧ submit = true) := by
  intro role submit row df file
  unfold adminFlow
  by_cases h : role = "Admin" <;> cases submit <;> simp [h]

/-- C9, witness: a Bank-role run with a submitted form changes nothing. -/
theorem non_admin_never_writes_witness :
    adminFlow "Bank" true exRow exAlerts exDate = (exAlerts, exDate) :=
  (non_admin_never_writes "Bank" true exRow exAlerts exDate).1 (by decide)

/-- C10: a row whose accuracy cell fails numeric parsing is kept with
accuracy zero, so it lands in the lowest band, is counted by the Critical
Models KPI, and belongs to the critical-alert rows: on the concrete table
with accuracy cells abc and 80, the coerced table still has two rows, its
critical count is one, and its alert rows are exactly the abc row. -/
theorem unparseable_accuracy_zero_band_alert :
    (∀ s : String, parseRat s = none → coerceCell (.str s) = .num 0) ∧
    band 0 = "Low" ∧ (0:ℚ) < ALERT_THRESHOLD ∧
    exAccuracyCoerced.nrows = 2 ∧
    exAccuracyCoerced.getCol "accuracy" = some [.num 0, .num 80] ∧
    criticalCount exAccuracyCoerced = 1 ∧
    (DF.alerts exAccuracyCoerced).getCol "bank" = some [.str "X"] := by
  refine ⟨fun s h => ?_, by decide, by decide, by decide, by decide, by decide, by decide⟩
  simp only [coerceCell, parseCell]
  rw [h]
  rfl

/-- C10, witness: the unparseable cell abc coerces to zero. -/
theorem unparseable_accuracy_zero_band_alert_witness :
    coerceCell (.str "abc") = .num 0 :=
  unparseable_accuracy_zero_band_alert.1 "abc" (by decide)

/-- C1, counterexample: raw headers are not claimed by at most one canonical
field: on the single header bank model, both the bank field and the model
field resolve to the same header. -/
theorem find_col_shared_header_cex :
    fieldClaims ["bank model"] = [("bank", "bank model"), ("model", "bank model")] ∧
    ¬ List.Pairwise (fun p q => p.2 ≠ q.2) (fieldClaims ["bank model"]) := by
  refine ⟨by decide, by decide⟩

/-- C1, amended: each canonical field independently resolves to the first
header in original order containing one of its keys as a substring; there is
no claiming, so several fields may resolve to the same header, in which case
the rename dict maps that header to the last such field in declaration
order (on the header bank model, to model). -/
theorem find_col_first_match_no_claiming :
    (∀ (cols keys : List String) (h : String),
      find_col cols keys = some h ↔
        (keys.any (fun k => strHas h k)) = true ∧
        ∃ pre post, cols = pre ++ h :: post ∧
          ∀ c ∈ pre, (keys.any (fun k => strHas c k)) = false) ∧
    renameCol (buildRenameMap ["bank model"]) "bank model" = "model" := by
  refine ⟨fun cols keys h => ?_, by decide⟩
  rw [find_col, List.find?_eq_some]
  simp [Bool.not_eq_true']

/-- C2, counterexample: on a sheet whose headers resolve bank and date but
no accuracy header, ingestion does not fail: it succeeds and substitutes the
default zero column for the required accuracy field. -/
theorem required_accuracy_defaulted_cex :
    find_col (["Bank Name", "Report Date"].map normHeader) ["accuracy"] = none ∧
    (ingest exC2).isOk = true ∧
    ingestCol exC2 "accuracy" = some [Cell.num 0] := by
  refine ⟨by decide, by decide, by decide⟩

set_option maxHeartbeats 4000000 in
/-- C2, amended: when no header resolves to accuracy (and a date header is
present so ingestion reaches the views), ingestion succeeds without any
error and the accuracy column is force-created as the default zero; no
required-field failure occurs. -/
theorem missing_accuracy_header_defaults :
    (∀ (n : ℕ) (bvals dvals : List Cell),
      ingestCol ⟨n, [("Bank Name", bvals), ("Report Date", dvals)]⟩ "accuracy" =
        some (List.replicate n (Cell.num 0))) ∧
    find_col (["Bank Name", "Report Date"].map normHeader) ["accuracy"] = none := by
  refine ⟨fun n bvals dvals => ?_, by decide⟩
  show some (List.map coerceCell (List.replicate n (Cell.num 0))) =
    some (List.replicate n (Cell.num 0))
  rw [List.map_replicate]
  rfl

/-- C3, counterexample: the normalization performs no fill-forward of the
bank name: the ingested bank column of the sheet with bank names A, blank,
blank, B, blank is unchanged, not A, A, A, B, B, and blank bank names
remain. -/
theorem bank_fill_forward_cex :
    ingestCol exC3 "bank" = some [.str "A", .empty, .empty, .str "B", .empty] ∧
    [Cell.str "A", .empty, .empty, .str "B", .empty] ≠
      [Cell.str "A", .str "A", .str "A", .str "B", .str "B"] := by
  refine ⟨by decide, by decide⟩

set_option maxHeartbeats 4000000 in
/-- C3, amended: the bank-name column passes through ingestion unchanged
whatever its cells: no fill-forward happens and blank values stay blank. -/
theorem bank_column_passthrough :
    ∀ (n : ℕ) (b m p c a d : List Cell),
      ingestCol ⟨n, [("Bank Name", b), ("Model", m), ("Predicted", p), ("Confirmed", c),
                     ("Accuracy", a), ("Date", d)]⟩ "bank" = some b :=
  fun _ _ _ _ _ _ _ => rfl

/-- C6, counterexample: the critical-alert set is not the bank-level
mean-accuracy aggregation: on two records of bank X with accuracies 35 and
55 (mean 45), the mean-aggregation reading of the claim yields no alerts
while the code keeps the accuracy-35 row of X as an alert. -/
theorem alerts_row_level_cex :
    claimMeanAlertSet [(.str "X", 35), (.str "X", 55)] = [] ∧
    (DF.alerts exAlertsSameBank).getCol "bank" = some [.str "X"] ∧
    some [Cell.str "X"] ≠ some ([] : List Cell) := by
  refine ⟨?_, by decide, by decide⟩
  show List.filter _ [Cell.str "X"] = []
  rw [List.filter_cons, List.filter_nil, if_neg]
  simp only [decide_eq_true_eq]
  have h2 : (([(Cell.str "X", (35:ℚ)), (Cell.str "X", 55)].filter
      (fun r => r.1 == Cell.str "X")).map (fun r => r.2)) = [35, 55] := by decide
  rw [h2]
  norm_num [ALERT_THRESHOLD]

/-- C6, amended: the critical-alert set consists exactly of the individual
records of the (date-filtered) table whose accuracy lies strictly below the
threshold 40, with no per-bank mean aggregation; on the records X at 35 and
Y at 55 it is exactly the X record. -/
theorem alerts_filter_below_threshold :
    (∀ (df : DF) (vals : List Cell), df.getCol "accuracy" = some vals →
      (DF.alerts df).getCol "accuracy" =
        some (vals.filter (fun c => decide (toRat c < ALERT_THRESHOLD)))) ∧
    (DF.alerts exAlerts).getCol "bank" = some [.str "X"] := by
  refine ⟨fun df vals h => ?_, by decide⟩
  unfold DF.alerts
  rw [getCol_filterBy df "accuracy" _ vals h "accuracy", h, Option.map_some',
    applyMask_map_filter]

/-- C6, witness: the general alert characterization applied to the two-bank
table. -/
theorem alerts_filter_below_threshold_witness :
    (DF.alerts exAlerts).getCol "accuracy" =
      some ([Cell.num 35, Cell.num 55].filter
        (fun c => decide (toRat c < ALERT_THRESHOLD))) :=
  alerts_filter_below_threshold.1 exAlerts [Cell.num 35, Cell.num 55] (by decide)

/-- C8: a record whose date is missing or unparseable never matches any
selected date, so it is excluded from every date-filtered view, while
ingestion keeps the record in the full table (the row count is preserved). -/
theorem missing_date_excluded_from_date_views :
    (∀ d : ℤ, dateMatch d Cell.empty = false) ∧
    (∀ s : String, parseDateStr s = none → parseDateCell (.str s) = Cell.empty) ∧
    (∀ (df : DF) (d : ℤ) (vals : List Cell), df.getCol "date" = some vals →
      (dateFiltered df d).getCol "date" = some (vals.filter (dateMatch d))) ∧
    (∀ df t : DF, ingest df = Except.ok t → t.nrows = df.nrows) := by
  refine ⟨fun d => rfl, fun s h => ?_, fun df d vals h => ?_, ingest_ok_nrows⟩
  · simp only [parseDateCell]
    rw [h]
  · unfold dateFiltered
    rw [getCol_filterBy df "date" (dateMatch d) vals h "date", h, Option.map_some',
      applyMask_map_filter]

/-- C8, witness: the characterization applied to the concrete table whose
second record has a missing date, the unparseable string notadate, and the
concrete ingestion of exC2. -/
theorem missing_date_excluded_witness :
    parseDateCell (.str "notadate") = Cell.empty ∧
    (dateFiltered exDate 20240101).getCol "date" =
      some ([Cell.date 20240101, Cell.empty].filter (dateMatch 20240101)) ∧
    exC2Ingested.nrows = exC2.nrows :=
  ⟨missing_date_excluded_from_date_views.2.1 "notadate" (by decide),
   missing_date_excluded_from_date_views.2.2.1 exDate 20240101
     [Cell.date 20240101, Cell.empty] (by decide),
   missing_date_excluded_from_date_views.2.2.2 exC2 exC2Ingested (by rfl)⟩

/-- C7, counterexample: the bank summary is not sorted descending by
predicted total: on banks a (predicted 10) and b (predicted 100) the
summary lists a before b, so the predicted totals appear ascending. -/
theorem bank_summary_order_cex :
    (DF.bankSummary exSummary).map (fun r => r.2.1) = [(10:ℚ), 100] ∧ (10:ℚ) < 100 := by
  constructor
  · have h : DF.bankSummary exSummary =
      [(Cell.str "a", 10 + 0, 1 + 0), (Cell.str "b", 100 + 0, 2 + 0)] := rfl
    rw [h]
    norm_num
  · norm_num

/-- C7, amended: the per-bank sums of predicted and confirmed are
independent of input row order (any permutation of the records yields the
same summary), and the summary rows are sorted ascending by bank group
label, not descending by predicted total. -/
theorem bank_summary_perm_invariant_sorted_by_label :
    (∀ rs1 rs2 : List (Cell × ℚ × ℚ), rs1.Perm rs2 →
      bankSummaryOf rs1 = bankSummaryOf rs2) ∧
    (∀ rs : List (Cell × ℚ × ℚ),
      ((bankSummaryOf rs).map (fun r => r.1)).Sorted (· ≤ ·)) := by
  constructor
  · intro rs1 rs2 h
    unfold bankSummaryOf
    rw [bankKeys_perm h]
    refine List.map_congr_left fun k hk => ?_
    rw [sumFor_perm h, sumFor_perm h]
  · intro rs
    unfold bankSummaryOf
    rw [List.map_map]
    have hcomp : ((fun r : Cell × ℚ × ℚ => r.1) ∘
        (fun k => (k, sumFor rs k (fun r => r.2.1), sumFor rs k (fun r => r.2.2)))) =
          id := rfl
    rw [hcomp, List.map_id]
    exact List.sorted_insertionSort _ _

/-- C7, witness: permutation invariance of the summary applied to two
concrete records swapped. -/
theorem bank_summary_perm_invariant_witness :
    bankSummaryOf [(Cell.str "a", 10, 1), (Cell.str "b", 100, 2)] =
      bankSummaryOf [(Cell.str "b", 100, 2), (Cell.str "a", 10, 1)] :=
  bank_summary_perm_invariant_sorted_by_label.1 _ _ (by decide)

end MIS
